import Mathlib

/-!
Verification of the scoring pipeline of `streamlit_planning_dashboard.py`:
the context-weighting function `calculate_policy_weights`, the site
assessment `auto_assess_site`, and the `planning_balance_engine`.

Python dictionaries are modelled as structures whose fields are the keys the
functions read; a `dict.get(key)` that may miss is an `Option` field.  Python
floats are modelled as exact rationals (every constant in the source is a
small decimal), and `math.exp` as `Real.exp` on the cast of the rational.
Python's `round` rounds halves to even while Mathlib's `round` rounds halves
up; they agree away from exact half-integers, and the only rational value the
logistic map can produce is 1/2 (at `raw = 0`), where `mapped * 100 = 50` is
rounded to `50` by both conventions.
-/

/-- Models Python list/str containment of `needle` at the head of `hay`. -/
def charsBeginWith : List Char → List Char → Bool
  | [], _ => true
  | _ :: _, [] => false
  | a :: as, b :: bs => a == b && charsBeginWith as bs

/-- Models Python's substring test `needle in hay` over character lists. -/
def charsContain : List Char → List Char → Bool
  | needle, [] => needle.isEmpty
  | needle, b :: bs => charsBeginWith needle (b :: bs) || charsContain needle bs

/-- Models Python `str.lower()` (the strings involved are ASCII). -/
def lowerChars (l : List Char) : List Char := l.map Char.toLower

/-- The planning-context dictionary passed to `calculate_policy_weights`
(lines 300-306 of the source): the five keys the function reads.  A field is
`none` when the key is absent, so `dict.get(k)` is the field itself. -/
structure PolicyContext where
  five_year_supply : Option String
  housing_delivery : Option String
  local_plan_status : Option String
  brownfield_policy : Option String
  heritage_context : Option String
deriving DecidableEq

/-- The weights dictionary returned by `calculate_policy_weights`
(its three fixed keys "housing", "brownfield", "heritage"). -/
structure PolicyWeights where
  housing : ℚ
  brownfield : ℚ
  heritage : ℚ
deriving DecidableEq

/-- The final clamping loop of `calculate_policy_weights` (lines 52-54):
`w = min(w, 2.0)` then `w = max(w, 0.5)`. -/
def clampWeight (w : ℚ) : ℚ := max (min w 2) 0.5

/-- The housing weight before clamping (lines 19-37): 1.0 plus the additive
bumps from supply, delivery and plan status.  The comparisons are the
source's own: exact equality against the plain enumeration strings. -/
def housing_weight_raw (ctx : PolicyContext) : ℚ :=
  1 + (if ctx.five_year_supply = some "No" then 0.4
       else if ctx.five_year_supply = some "Marginal" then 0.2 else 0)
    + (if ctx.housing_delivery = some "<75%" then 0.3
       else if ctx.housing_delivery = some "75-95%" then 0.15 else 0)
    + (if ctx.local_plan_status = some "Emerging" ∨ ctx.local_plan_status = some "Out-of-date"
       then 0.2 else 0)

/-- The brownfield weight before clamping (lines 40-43). -/
def brownfield_weight_raw (ctx : PolicyContext) : ℚ :=
  1 + (if ctx.brownfield_policy = some "Strong preference" then 0.3
       else if ctx.brownfield_policy = some "Moderate preference" then 0.15 else 0)

/-- The heritage weight before clamping (lines 46-49). -/
def heritage_weight_raw (ctx : PolicyContext) : ℚ :=
  1 + (if ctx.heritage_context = some "High sensitivity" then 0.4
       else if ctx.heritage_context = some "Moderate sensitivity" then 0.2 else 0)

/-- `calculate_policy_weights` (source lines 17-56). -/
def calculate_policy_weights (ctx : PolicyContext) : PolicyWeights :=
  ⟨clampWeight (housing_weight_raw ctx),
   clampWeight (brownfield_weight_raw ctx),
   clampWeight (heritage_weight_raw ctx)⟩

/-- A harm or benefit record as built by `auto_assess_site` and consumed by
`planning_balance_engine`: a dictionary with optional "title", "desc",
"impact" and "mitigation" keys. -/
structure Impact where
  title : Option String
  desc : Option String
  impact : Option ℚ
  mitigation : Option String
deriving DecidableEq

/-- The site dictionary fields `auto_assess_site` reads (the UI stores more
keys, but the function touches only these). -/
structure SiteMeta where
  flood_zone : Option String
  adjacent_heritage : Bool
  green_belt : Bool
  brownfield : Bool
  contamination_risk : Bool
  five_year_supply : Option String
  good_access : Bool
  affordable_pct : Option ℚ
deriving DecidableEq

/-- The default harm appended when no harm condition fires (line 159). -/
def default_harm : Impact :=
  ⟨some "Low obvious policy conflict", some "No high-level constraints detected.", some 1, none⟩

/-- The default benefit appended when no benefit condition fires (line 161). -/
def default_benefit : Impact :=
  ⟨some "Development potential", some "Proposal would deliver development & local benefits.",
   some 2, none⟩

/-- The harms accumulated by `auto_assess_site` before the default is
considered (lines 124-149), in append order. -/
def assess_harms (s : SiteMeta) : List Impact :=
  (if s.flood_zone = some "2" ∨ s.flood_zone = some "3" then
    [⟨some "Flood risk", some ("Site lies in Flood Zone " ++ s.flood_zone.getD "" ++ "."),
      some 8, some "Sequential test; raise finished floor levels; SuDS."⟩]
   else [])
  ++ (if s.adjacent_heritage then
    [⟨some "Heritage asset adjacency", some "Close to listed building or conservation area.",
      some 7, some "Heritage Impact Assessment; avoid harm to setting."⟩]
   else [])
  ++ (if s.green_belt then
    [⟨some "Green Belt", some "Site is in the Green Belt.", some 10,
      some "Very special circumstances required."⟩]
   else [])
  ++ (if s.brownfield ∧ s.contamination_risk then
    [⟨some "Contamination risk", some "Likely to require remediation works.", some 6,
      some "Site investigations and remediation."⟩]
   else [])
  ++ (if s.good_access then []
   else
    [⟨some "Poor access / highways impact",
      some "Limited access or constrained highway network.", some 5,
      some "Transport Assessment and junction mitigation."⟩])

/-- The benefits accumulated by `auto_assess_site` before the default is
considered (lines 138-155), in append order. -/
def assess_benefits (s : SiteMeta) : List Impact :=
  (if s.brownfield then
    [⟨some "Brownfield regeneration",
      some "Re-use of previously developed land supports NPPF objectives.", some 6, none⟩]
   else [])
  ++ (if s.five_year_supply = some "No" ∨ s.five_year_supply = some "Marginal" then
    [⟨some "Housing delivery", some "Local authority failing 5YHLS or high housing need.",
      some 8, none⟩]
   else [])
  ++ (if s.good_access then
    [⟨some "Good access to public transport", some "Close to public transport links.",
      some 3, none⟩]
   else [])
  ++ (if (25 : ℚ) ≤ s.affordable_pct.getD 0 then
    [⟨some "Affordable housing offered",
      some (toString (s.affordable_pct.getD 0) ++ "% affordable homes."), some 5, none⟩]
   else [])

/-- `auto_assess_site` (source lines 120-163): the accumulated lists, each
replaced by its default singleton when empty. -/
def auto_assess_site (s : SiteMeta) : List Impact × List Impact :=
  (if assess_harms s = [] then [default_harm] else assess_harms s,
   if assess_benefits s = [] then [default_benefit] else assess_benefits s)

/-- `record.get("impact", 0)` (lines 170-171, 178, 198-199). -/
def impactOf (r : Impact) : ℚ := r.impact.getD 0

/-- `harm_score = sum(h.get("impact", 0) for h in harms)` (line 170). -/
def harm_score (harms : List Impact) : ℚ := (harms.map impactOf).sum

/-- The condition of line 177: `key in benefit.get("title", "").lower()`. -/
def titleMatches (b : Impact) (key : String) : Bool :=
  charsContain key.data (lowerChars (b.title.getD "").data)

/-- The inner loop of lines 176-178: the total added to `benefit_score` for
one benefit, iterating over the weight dictionary's (key, weight) pairs. -/
def weightBump (wl : List (String × ℚ)) (b : Impact) : ℚ :=
  wl.foldl (fun acc kv => if titleMatches b kv.1 then acc + impactOf b * (kv.2 - 1) else acc) 0

/-- The final value of `benefit_score` (lines 171-178): the plain sum, plus —
when a weights dictionary is given — the bump of every benefit.  The weights
dictionary is a key/weight association list in insertion order; `none` is
Python's `None` default (an empty dictionary is equally inert, since its
loop adds nothing). -/
def benefit_score (benefits : List Impact) : Option (List (String × ℚ)) → ℚ
  | none => (benefits.map impactOf).sum
  | some wl => benefits.foldl (fun acc b => acc + weightBump wl b) ((benefits.map impactOf).sum)

/-- `raw = (benefit_score - harm_score) + 20` (line 180). -/
def raw_score (harms benefits : List Impact) (w : Option (List (String × ℚ))) : ℚ :=
  (benefit_score benefits w - harm_score harms) + 20

/-- `mapped = 1 / (1 + math.exp(-(raw / 15)))` (line 181). -/
noncomputable def mapped (harms benefits : List Impact) (w : Option (List (String × ℚ))) : ℝ :=
  1 / (1 + Real.exp (-(((raw_score harms benefits w : ℚ) : ℝ) / 15)))

/-- `score = int(round(mapped * 100))` clamped to `[0, 100]` (lines 182-183). -/
noncomputable def score (harms benefits : List Impact) (w : Option (List (String × ℚ))) : ℤ :=
  max 0 (min 100 (round (mapped harms benefits w * 100)))

/-- The label thresholds of lines 185-196. -/
noncomputable def label (harms benefits : List Impact) (w : Option (List (String × ℚ))) :
    String :=
  if 80 ≤ score harms benefits w then "Low Risk / Likely to Succeed"
  else if 60 ≤ score harms benefits w then "Medium Risk / Reasonable Chance"
  else if 40 ≤ score harms benefits w then "High Risk / Uncertain"
  else "Very High Risk / Unlikely"

/-- The tier icon of lines 185-196. -/
noncomputable def icon (harms benefits : List Impact) (w : Option (List (String × ℚ))) :
    String :=
  if 80 ≤ score harms benefits w then "🟢"
  else if 60 ≤ score harms benefits w then "🟡"
  else if 40 ≤ score harms benefits w then "🟠"
  else "🔴"

/-- The sort order of lines 198-199: `sorted(key=lambda x: -abs(x.get("impact", 0)))`,
read as the list relation "earlier has the larger absolute impact". -/
def byDescAbsImpact (a b : Impact) : Prop := |impactOf b| ≤ |impactOf a|

instance : DecidableRel byDescAbsImpact :=
  fun a b => inferInstanceAs (Decidable (|impactOf b| ≤ |impactOf a|))

instance : IsTotal Impact byDescAbsImpact :=
  ⟨fun a b => le_total (|impactOf b|) (|impactOf a|)⟩

instance : IsTrans Impact byDescAbsImpact :=
  ⟨fun _ _ _ hab hbc => le_trans hbc hab⟩

/-- `sorted(entries, key=lambda x: -abs(x.get("impact", 0)))[:3]` (lines
198-199).  Python's sort is stable; insertion sort under `byDescAbsImpact`
is the stable descending sort, as the stability theorem below proves. -/
def topByAbsImpact (l : List Impact) : List Impact :=
  (List.insertionSort byDescAbsImpact l).take 3

/-- The dictionary returned by `planning_balance_engine` (lines 201-211),
with the "rationale" sub-dictionary flattened into fields. -/
structure AssessmentResult where
  score : ℤ
  label : String
  icon : String
  harm_score : ℚ
  benefit_score : ℚ
  top_harms : List Impact
  top_benefits : List Impact

/-- `planning_balance_engine` (source lines 165-211). -/
noncomputable def planning_balance_engine (harms benefits : List Impact)
    (w : Option (List (String × ℚ))) : AssessmentResult :=
  ⟨score harms benefits w, label harms benefits w, icon harms benefits w,
   harm_score harms, benefit_score benefits w,
   topByAbsImpact harms, topByAbsImpact benefits⟩

/-- A Python value an "impact" entry may hold at runtime: a number, or a
malformed non-numeric value (modelled by its repr string). -/
inductive PyVal where
  | num (q : ℚ)
  | str (s : String)
deriving DecidableEq

/-- A harm/benefit record whose "impact" entry is dynamically typed, for the
error-handling analysis of the engine. -/
structure DynImpact where
  title : Option String
  desc : Option String
  impact : Option PyVal
  mitigation : Option String
deriving DecidableEq

/-- Whether a record's "impact" entry is numeric or missing — the values on
which Python's `h.get("impact", 0)` arithmetic succeeds. -/
def impactOk (r : DynImpact) : Bool :=
  match r.impact with
  | some (.str _) => false
  | _ => true

/-- One record's impact as the engine's arithmetic reads it: a missing entry
is the default 0, a non-numeric one raises `TypeError` at the first `sum`
(line 170 or 171) — Python does not coerce it. -/
def resolveImpact (r : DynImpact) : Except String Impact :=
  match r.impact with
  | none => .ok ⟨r.title, r.desc, none, r.mitigation⟩
  | some (.num q) => .ok ⟨r.title, r.desc, some q, r.mitigation⟩
  | some (.str _) => .error "TypeError: unsupported operand type(s) for +"

/-- Resolve every record in order, stopping at the first malformed impact,
as the sums of lines 170-171 would. -/
def resolveAll : List DynImpact → Except String (List Impact)
  | [] => .ok []
  | r :: rest =>
    match resolveImpact r with
    | .error e => .error e
    | .ok v =>
      match resolveAll rest with
      | .error e => .error e
      | .ok vs => .ok (v :: vs)

/-- The record with its impact entry resolved to a rational (or left missing);
only applied to records that pass `impactOk`. -/
def stripDyn (r : DynImpact) : Impact :=
  ⟨r.title, r.desc,
   (match r.impact with | some (.num q) => some q | _ => none),
   r.mitigation⟩

/-- `planning_balance_engine` on dynamically-typed records: every impact is
read by the harm and benefit sums of lines 170-171, so a run either raises
`TypeError` at the first non-numeric impact or proceeds exactly as the
rational engine (later reads — the weighting loop and the sort keys — touch
the same values again and cannot fail once the sums have succeeded). -/
noncomputable def planning_balance_engine_dyn (harms benefits : List DynImpact)
    (w : Option (List (String × ℚ))) : Except String AssessmentResult :=
  match resolveAll harms with
  | .error e => .error e
  | .ok h =>
    match resolveAll benefits with
    | .error e => .error e
    | .ok b => .ok (planning_balance_engine h b w)

/-- The default planning context built by `main` (lines 337-343): every field
at its strong/adopted/demonstrated baseline, in the decorated form the
sidebar widgets emit. -/
def default_planning_context : PolicyContext :=
  ⟨some "✅ Yes - Demonstrated", some ">95%", some "📅 Adopted (<5 years)",
   some "🎯 Strong preference", some "🏛️ High sensitivity"⟩

/-! ## Clamping bounds -/

theorem clampWeight_le (w : ℚ) : clampWeight w ≤ 2 :=
  max_le (min_le_right _ _) (by norm_num)

theorem clampWeight_ge (w : ℚ) : 0.5 ≤ clampWeight w := le_max_right _ _

theorem clampWeight_eq_of_between {w : ℚ} (h1 : 1 ≤ w) (h2 : w ≤ 2) : clampWeight w = w := by
  unfold clampWeight
  rw [min_eq_left h2, max_eq_left (by linarith)]

theorem housing_weight_raw_between (ctx : PolicyContext) :
    1 ≤ housing_weight_raw ctx ∧ housing_weight_raw ctx ≤ 2 := by
  unfold housing_weight_raw
  split_ifs <;> norm_num

theorem brownfield_weight_raw_between (ctx : PolicyContext) :
    1 ≤ brownfield_weight_raw ctx ∧ brownfield_weight_raw ctx ≤ 2 := by
  unfold brownfield_weight_raw
  split_ifs <;> norm_num

theorem heritage_weight_raw_between (ctx : PolicyContext) :
    1 ≤ heritage_weight_raw ctx ∧ heritage_weight_raw ctx ≤ 2 := by
  unfold heritage_weight_raw
  split_ifs <;> norm_num

/-- C5: for every PolicyContext input — any combination of field values,
recognized or not — each of the three weights returned by
`calculate_policy_weights` lies in the interval [0.5, 2.0]. -/
theorem claim5_weights_within_bounds (ctx : PolicyContext) :
    (0.5 ≤ (calculate_policy_weights ctx).housing ∧ (calculate_policy_weights ctx).housing ≤ 2) ∧
    (0.5 ≤ (calculate_policy_weights ctx).brownfield ∧
      (calculate_policy_weights ctx).brownfield ≤ 2) ∧
    (0.5 ≤ (calculate_policy_weights ctx).heritage ∧
      (calculate_policy_weights ctx).heritage ≤ 2) :=
  ⟨⟨clampWeight_ge _, clampWeight_le _⟩, ⟨clampWeight_ge _, clampWeight_le _⟩,
   ⟨clampWeight_ge _, clampWeight_le _⟩⟩

/-- C10 (implicit): for every PolicyContext input each derived weight is at
least 1.0 — the rule table only adds non-negative bumps to an initial 1.0 and
the sums stay at most 2, so the lower clamp bound 0.5 is never exercised. -/
theorem claim10_weights_at_least_one (ctx : PolicyContext) :
    1 ≤ (calculate_policy_weights ctx).housing ∧
    1 ≤ (calculate_policy_weights ctx).brownfield ∧
    1 ≤ (calculate_policy_weights ctx).heritage := by
  obtain ⟨h1, h2⟩ := housing_weight_raw_between ctx
  obtain ⟨b1, b2⟩ := brownfield_weight_raw_between ctx
  obtain ⟨g1, g2⟩ := heritage_weight_raw_between ctx
  refine ⟨?_, ?_, ?_⟩ <;>
    simp only [calculate_policy_weights] <;>
    rw [clampWeight_eq_of_between] <;> assumption

/-- C3: on the code's baseline PolicyContext — every field at its
strong/adopted/demonstrated value as the sidebar emits it — all three derived
weights equal exactly 1.0 (no rule of the table matches any of its values). -/
theorem claim3_baseline_context_weights_one :
    calculate_policy_weights default_planning_context = ⟨1, 1, 1⟩ := by
  simp [calculate_policy_weights, default_planning_context, housing_weight_raw,
    brownfield_weight_raw, heritage_weight_raw, clampWeight]
  norm_num

/-- The sidebar's decorated "No" answer for the five-year-supply radio
(line 280). -/
def decorated_no_context : PolicyContext :=
  ⟨some "❌ No - Not demonstrated", some ">95%", some "📅 Adopted (<5 years)",
   some "🎯 Strong preference", some "🏛️ High sensitivity"⟩

/-- The same context with the plain-text value the rule table compares
against (line 26). -/
def plain_no_context : PolicyContext :=
  ⟨some "No", some ">95%", some "📅 Adopted (<5 years)",
   some "🎯 Strong preference", some "🏛️ High sensitivity"⟩

/-- A site whose only potential benefit trigger is its five-year-supply
value, in the decorated form the sidebar stores (line 323). -/
def decorated_marginal_site : SiteMeta :=
  ⟨none, false, false, false, false, some "⚠️ Marginal", false, none⟩

/-- The same site with the plain value line 144 compares against. -/
def plain_marginal_site : SiteMeta :=
  ⟨none, false, false, false, false, some "Marginal", false, none⟩

/-- C1 (code bug): the decorated (emoji-prefixed) field values the sidebar
produces do not behave like their plain-text forms — the rule tables compare
with exact string equality, not substring/trim after normalization.  With
five-year supply "❌ No - Not demonstrated" the housing weight stays 1.0 and
no "Housing delivery" benefit is triggered, while the plain "No"/"Marginal"
forms give weight 1.4 and trigger the benefit. -/
theorem claim1_decorated_values_break_rule_matching :
    (calculate_policy_weights decorated_no_context).housing = 1 ∧
    (calculate_policy_weights plain_no_context).housing = 1.4 ∧
    (1 : ℚ) ≠ 1.4 ∧
    (auto_assess_site decorated_marginal_site).2.map Impact.title =
      [some "Development potential"] ∧
    (auto_assess_site plain_marginal_site).2.map Impact.title = [some "Housing delivery"] := by
  refine ⟨?_, ?_, by norm_num, ?_, ?_⟩
  · simp [calculate_policy_weights, decorated_no_context, housing_weight_raw, clampWeight]
    norm_num
  · simp [calculate_policy_weights, plain_no_context, housing_weight_raw, clampWeight]
    norm_num
  · simp [auto_assess_site, assess_benefits, decorated_marginal_site, default_benefit]
  · simp [auto_assess_site, assess_benefits, plain_marginal_site, default_benefit]

/-! ## Site assessment defaults (C6) -/

/-- None of the harm conditions of `auto_assess_site` fires on the site. -/
def no_harm_trigger (s : SiteMeta) : Prop :=
  ¬(s.flood_zone = some "2" ∨ s.flood_zone = some "3") ∧
  s.adjacent_heritage = false ∧
  s.green_belt = false ∧
  ¬(s.brownfield = true ∧ s.contamination_risk = true) ∧
  s.good_access = true

/-- None of the benefit conditions of `auto_assess_site` fires on the site. -/
def no_benefit_trigger (s : SiteMeta) : Prop :=
  s.brownfield = false ∧
  ¬(s.five_year_supply = some "No" ∨ s.five_year_supply = some "Marginal") ∧
  s.good_access = false ∧
  s.affordable_pct.getD 0 < 25

/-- A site on which no harm condition fires (good access, nothing else). -/
def quiet_site : SiteMeta := ⟨none, false, false, false, false, none, true, none⟩

/-- A site on which no benefit condition fires (poor access, nothing else). -/
def bare_site : SiteMeta := ⟨none, false, false, false, false, none, false, none⟩

/-- C6 counterexample: when no condition triggers, the defaults appended by
the code are titled "Low obvious policy conflict" and "Development potential"
— not the "no obvious policy conflict" / "development potential" titles the
claim states (the harm title differs in wording, the benefit in case). -/
theorem claim6_counterexample_default_titles :
    (auto_assess_site quiet_site).1 = [default_harm] ∧
    (¬ ∃ r ∈ (auto_assess_site quiet_site).1, r.title = some "no obvious policy conflict") ∧
    (auto_assess_site bare_site).2 = [default_benefit] ∧
    (¬ ∃ r ∈ (auto_assess_site bare_site).2, r.title = some "development potential") := by
  refine ⟨?_, ?_, ?_, ?_⟩ <;>
    simp [auto_assess_site, assess_harms, assess_benefits, quiet_site, bare_site,
      default_harm, default_benefit]

/-- C6 (amended): for every SiteMeta the Site Assessment step returns a
non-empty harms list and a non-empty benefits list; when no harm condition
triggers it returns exactly the default harm "Low obvious policy conflict"
with impact 1, and when no benefit condition triggers it returns exactly the
default benefit "Development potential" with impact 2. -/
theorem claim6_defaults_keep_lists_nonempty (s : SiteMeta) :
    (auto_assess_site s).1 ≠ [] ∧
    (auto_assess_site s).2 ≠ [] ∧
    (no_harm_trigger s → (auto_assess_site s).1 = [default_harm]) ∧
    (no_benefit_trigger s → (auto_assess_site s).2 = [default_benefit]) := by
  refine ⟨?_, ?_, ?_, ?_⟩
  · by_cases h : assess_harms s = [] <;> simp [auto_assess_site, h]
  · by_cases h : assess_benefits s = [] <;> simp [auto_assess_site, h]
  · rintro ⟨h1, h2, h3, h4, h5⟩
    simp [auto_assess_site, assess_harms, h1, h2, h3, h4, h5]
  · rintro ⟨h1, h2, h3, h4⟩
    simp [auto_assess_site, assess_benefits, h1, h2, h3, not_le.mpr h4]

/-! ## The weighting loop of the Balance Engine (C2) -/

theorem foldl_add_eq_sum {α : Type} (f : α → ℚ) :
    ∀ (l : List α) (init : ℚ), l.foldl (fun acc x => acc + f x) init = init + (l.map f).sum
  | [], init => by simp
  | a :: t, init => by
    rw [List.foldl_cons, foldl_add_eq_sum f t (init + f a)]
    simp [List.sum_cons]
    ring

theorem foldl_ite_add_eq_filter_sum {α : Type} (f : α → ℚ) (p : α → Bool) :
    ∀ (l : List α) (init : ℚ),
      l.foldl (fun acc x => if p x then acc + f x else acc) init =
        init + ((l.filter p).map f).sum
  | [], init => by simp
  | a :: t, init => by
    by_cases h : p a = true
    · rw [List.foldl_cons, if_pos h, foldl_ite_add_eq_filter_sum f p t (init + f a)]
      simp [List.filter_cons, h, List.sum_cons]
      ring
    · rw [List.foldl_cons, if_neg h, foldl_ite_add_eq_filter_sum f p t init]
      simp [List.filter_cons, h]

theorem sum_map_add {α : Type} (f g : α → ℚ) :
    ∀ l : List α, (l.map (fun x => f x + g x)).sum = (l.map f).sum + (l.map g).sum
  | [] => by simp
  | a :: t => by
    simp [List.sum_cons, sum_map_add f g t]
    ring

theorem weightBump_eq_filter_sum (wl : List (String × ℚ)) (b : Impact) :
    weightBump wl b =
      ((wl.filter (fun kv => titleMatches b kv.1)).map (fun kv => impactOf b * (kv.2 - 1))).sum := by
  rw [weightBump, foldl_ite_add_eq_filter_sum, zero_add]

/-- The weighted benefit score spelled out as the amended spec sentence reads:
each benefit contributes its impact, plus `impact * (weight - 1.0)` for every
(topic, weight) pair whose topic occurs case-insensitively in the benefit's
title (the description is not consulted). -/
def spec_benefit_score_title_only (benefits : List Impact) (wl : List (String × ℚ)) : ℚ :=
  (benefits.map (fun b =>
    impactOf b +
      ((wl.filter (fun kv => titleMatches b kv.1)).map
        (fun kv => impactOf b * (kv.2 - 1))).sum)).sum

/-- The weighted benefit score spelled out as claim C2 states it: a
(topic, weight) pair also applies when the topic occurs case-insensitively in
the benefit's description. -/
def spec_benefit_score_title_or_desc (benefits : List Impact) (wl : List (String × ℚ)) : ℚ :=
  (benefits.map (fun b =>
    impactOf b +
      ((wl.filter (fun kv =>
          titleMatches b kv.1 ||
            charsContain kv.1.data (lowerChars (b.desc.getD "").data))).map
        (fun kv => impactOf b * (kv.2 - 1))).sum)).sum

/-- A benefit whose description (but not title) mentions a weighted topic. -/
def desc_only_benefit : Impact :=
  ⟨some "Extra open space", some "supports housing delivery", some 10, none⟩

/-- C2 counterexample: with a benefit whose description alone contains the
topic "housing" and weight table {"housing": 2}, the engine leaves the
benefit score at 10, while the claim's title-or-description rule predicts
10 + 10 * (2 - 1) = 20. -/
theorem claim2_counterexample_description_not_matched :
    benefit_score [desc_only_benefit] (some [("housing", 2)]) = 10 ∧
    spec_benefit_score_title_or_desc [desc_only_benefit] [("housing", 2)] = 20 ∧
    (10 : ℚ) ≠ 20 := by
  refine ⟨?_, ?_, by norm_num⟩
  · rw [benefit_score, foldl_add_eq_sum]
    have hb : weightBump [("housing", 2)] desc_only_benefit = 0 := by
      rw [weightBump]
      simp only [List.foldl_cons, List.foldl_nil]
      rw [if_neg (by decide)]
    simp only [List.map_cons, List.map_nil, List.sum_cons, List.sum_nil, hb]
    simp [impactOf, desc_only_benefit]
  · rw [spec_benefit_score_title_or_desc]
    simp only [List.map_cons, List.map_nil, List.sum_cons, List.sum_nil]
    rw [List.filter_cons, if_pos (by decide), List.filter_nil]
    simp [impactOf, desc_only_benefit]
    norm_num

/-- C2 (amended): when weights are given, the Balance Engine's benefit score
equals the per-benefit sum in which each (topic, weight) pair contributes
`impact * (weight - 1.0)` exactly when the topic occurs as a case-insensitive
substring of the benefit's title — the description is not consulted. -/
theorem claim2_weight_bump_matches_title_only (benefits : List Impact)
    (wl : List (String × ℚ)) :
    benefit_score benefits (some wl) = spec_benefit_score_title_only benefits wl := by
  rw [benefit_score, foldl_add_eq_sum, spec_benefit_score_title_only]
  rw [show (fun b => impactOf b +
      ((wl.filter (fun kv => titleMatches b kv.1)).map
        (fun kv => impactOf b * (kv.2 - 1))).sum) =
      (fun b => impactOf b + weightBump wl b) from ?_]
  · rw [sum_map_add]
  · funext b
    rw [weightBump_eq_filter_sum]

/-! ## Stability and order of the top-3 selection (C8) -/

theorem filter_absImpact_orderedInsert (q : ℚ) (a : Impact) :
    ∀ l : List Impact,
      (List.orderedInsert byDescAbsImpact a l).filter (fun x => decide (|impactOf x| = q)) =
        if |impactOf a| = q then
          a :: l.filter (fun x => decide (|impactOf x| = q))
        else l.filter (fun x => decide (|impactOf x| = q))
  | [] => by
    by_cases h : |impactOf a| = q <;> simp [List.orderedInsert, List.filter_cons, h]
  | b :: t => by
    by_cases hins : byDescAbsImpact a b
    · by_cases ha : |impactOf a| = q <;>
        simp [List.orderedInsert, hins, List.filter_cons, ha]
    · have hab : |impactOf a| < |impactOf b| := not_le.mp hins
      by_cases ha : |impactOf a| = q
      · have hb : ¬(|impactOf b| = q) := by
          intro hbq
          rw [hbq, ha] at hab
          exact lt_irrefl q hab
        simp [List.orderedInsert, hins, List.filter_cons, ha, hb,
          filter_absImpact_orderedInsert q a t]
      · by_cases hb : |impactOf b| = q <;>
          simp [List.orderedInsert, hins, List.filter_cons, ha, hb,
            filter_absImpact_orderedInsert q a t]

theorem filter_absImpact_insertionSort (q : ℚ) :
    ∀ l : List Impact,
      (List.insertionSort byDescAbsImpact l).filter (fun x => decide (|impactOf x| = q)) =
        l.filter (fun x => decide (|impactOf x| = q))
  | [] => rfl
  | a :: t => by
    simp only [List.insertionSort]
    rw [filter_absImpact_orderedInsert, filter_absImpact_insertionSort q t, List.filter_cons]
    by_cases h : |impactOf a| = q <;> simp [h]

/-- C8: `top_harms` and `top_benefits` are the three entries of greatest
absolute impact: each list has length at most 3 and at most the input's
length, is sorted in descending absolute impact, dominates every entry left
behind, and the underlying sort is a stable permutation — entries of equal
absolute impact keep their original (insertion) order, stated as: for every
key value, filtering the sorted list at that key gives exactly the input's
subsequence at that key. -/
theorem claim8_top_lists_sorted_stable (h b : List Impact) (w : Option (List (String × ℚ)))
    (l : List Impact) :
    (planning_balance_engine h b w).top_harms = topByAbsImpact h ∧
    (planning_balance_engine h b w).top_benefits = topByAbsImpact b ∧
    (topByAbsImpact l).length ≤ 3 ∧
    (topByAbsImpact l).length ≤ l.length ∧
    List.Pairwise byDescAbsImpact (topByAbsImpact l) ∧
    (∀ x ∈ topByAbsImpact l, ∀ y ∈ (List.insertionSort byDescAbsImpact l).drop 3,
      |impactOf y| ≤ |impactOf x|) ∧
    (List.insertionSort byDescAbsImpact l).Perm l ∧
    (∀ q : ℚ,
      (List.insertionSort byDescAbsImpact l).filter (fun x => decide (|impactOf x| = q)) =
        l.filter (fun x => decide (|impactOf x| = q))) := by
  refine ⟨rfl, rfl, ?_, ?_, ?_, ?_, List.perm_insertionSort _ _,
    fun q => filter_absImpact_insertionSort q l⟩
  · rw [topByAbsImpact, List.length_take]
    exact min_le_left _ _
  · rw [topByAbsImpact, List.length_take, (List.perm_insertionSort byDescAbsImpact l).length_eq]
    exact min_le_right _ _
  · exact List.Pairwise.sublist (List.take_sublist 3 _) (List.sorted_insertionSort _ l)
  · intro x hx y hy
    have hs : List.Pairwise byDescAbsImpact (List.insertionSort byDescAbsImpact l) :=
      List.sorted_insertionSort _ l
    rw [← List.take_append_drop 3 (List.insertionSort byDescAbsImpact l)] at hs
    simp only [topByAbsImpact] at hx
    exact (List.pairwise_append.mp hs).2.2 x hx y hy

/-! ## Bounds and monotonicity of the logistic score (C4, C7) -/

theorem mapped_le_mapped {h1 b1 h2 b2 : List Impact} {w : Option (List (String × ℚ))}
    (hr : raw_score h1 b1 w ≤ raw_score h2 b2 w) :
    mapped h1 b1 w ≤ mapped h2 b2 w := by
  unfold mapped
  have hr2 : ((raw_score h1 b1 w : ℚ) : ℝ) ≤ ((raw_score h2 b2 w : ℚ) : ℝ) := by
    exact_mod_cast hr
  have hexp : Real.exp (-(((raw_score h2 b2 w : ℚ) : ℝ) / 15)) ≤
      Real.exp (-(((raw_score h1 b1 w : ℚ) : ℝ) / 15)) :=
    Real.exp_le_exp.mpr (by linarith)
  have hp : (0:ℝ) < 1 + Real.exp (-(((raw_score h2 b2 w : ℚ) : ℝ) / 15)) := by positivity
  exact one_div_le_one_div_of_le hp (by linarith)

theorem round_monotone {x y : ℝ} (h : x ≤ y) : round x ≤ round y := by
  rw [round_eq, round_eq]
  exact Int.floor_mono (by linarith)

/-- C4: for every pair of harm and benefit lists (weights held fixed), the
engine's score lies in [0, 100]; and the score is monotonically non-decreasing
in the net value `benefit_score - harm_score`. -/
theorem claim4_score_bounds_and_monotone (w : Option (List (String × ℚ)))
    (h1 b1 h2 b2 : List Impact)
    (hnet : benefit_score b1 w - harm_score h1 ≤ benefit_score b2 w - harm_score h2) :
    (0 ≤ score h1 b1 w ∧ score h1 b1 w ≤ 100) ∧ score h1 b1 w ≤ score h2 b2 w := by
  refine ⟨⟨le_max_left 0 _, max_le (by norm_num) (min_le_left _ _)⟩, ?_⟩
  have hr : raw_score h1 b1 w ≤ raw_score h2 b2 w := by
    unfold raw_score
    linarith
  have hm := mapped_le_mapped hr
  have h100 : mapped h1 b1 w * 100 ≤ mapped h2 b2 w * 100 := by nlinarith
  exact max_le_max le_rfl (min_le_min le_rfl (round_monotone h100))

/-- A harm of impact 5 with no other entries, for the C4 witness. -/
def small_harm : Impact := ⟨none, none, some 5, none⟩

/-- A benefit of impact 1 with no other entries, for the C4 witness. -/
def small_benefit : Impact := ⟨none, none, some 1, none⟩

/-- C4 witness: the monotonicity hypothesis holds at a concrete pair of
inputs (net −5 against net 1), and the theorem applies there. -/
theorem claim4_witness :
    (benefit_score [] none - harm_score [small_harm] ≤
      benefit_score [small_benefit] none - harm_score []) ∧
    score [small_harm] [] none ≤ score [] [small_benefit] none := by
  have hnet : benefit_score [] none - harm_score [small_harm] ≤
      benefit_score [small_benefit] none - harm_score [] := by
    norm_num [benefit_score, harm_score, impactOf, small_harm, small_benefit]
  exact ⟨hnet, (claim4_score_bounds_and_monotone none [small_harm] [] [] [small_benefit] hnet).2⟩

/-- The harm record of the spec's worked example: impact 10. -/
def example_harm : Impact := ⟨none, none, some 10, none⟩

/-- The benefit record of the spec's worked example: impact 0. -/
def example_benefit : Impact := ⟨none, none, some 0, none⟩

theorem example_raw : raw_score [example_harm] [example_benefit] none = 10 := by
  norm_num [raw_score, benefit_score, harm_score, impactOf, example_harm, example_benefit]

theorem exp_twothirds_bounds : (1.9:ℝ) < Real.exp (2/3) ∧ Real.exp (2/3) < 1.96 := by
  have hc : Real.exp (2/3) ^ (3:ℕ) = Real.exp 2 := by
    rw [← Real.exp_nat_mul]
    norm_num
  have he2 : Real.exp 2 = Real.exp 1 * Real.exp 1 := by
    rw [← Real.exp_add]
    norm_num
  have hlo := Real.exp_one_gt_d9
  have hhi := Real.exp_one_lt_d9
  have hpos : (0:ℝ) < Real.exp (2/3) := Real.exp_pos _
  constructor
  · by_contra hle
    push_neg at hle
    have h3 : Real.exp (2/3) ^ (3:ℕ) ≤ (1.9:ℝ) ^ (3:ℕ) :=
      pow_le_pow_left₀ (le_of_lt hpos) hle 3
    rw [hc, he2] at h3
    nlinarith
  · by_contra hge
    push_neg at hge
    have h3 : (1.96:ℝ) ^ (3:ℕ) ≤ Real.exp (2/3) ^ (3:ℕ) :=
      pow_le_pow_left₀ (by norm_num) hge 3
    rw [hc, he2] at h3
    nlinarith

theorem example_mapped_bounds :
    (0.655:ℝ) ≤ mapped [example_harm] [example_benefit] none ∧
    mapped [example_harm] [example_benefit] none < 0.665 := by
  have hE := exp_twothirds_bounds
  have hEpos : (0:ℝ) < Real.exp (2/3) := Real.exp_pos _
  have hmap : mapped [example_harm] [example_benefit] none =
      1 / (1 + Real.exp (-(2/3 : ℝ))) := by
    rw [mapped, example_raw]
    norm_num
  rw [hmap, Real.exp_neg]
  have hinv : Real.exp (2/3) * (Real.exp (2/3))⁻¹ = 1 := mul_inv_cancel₀ (ne_of_gt hEpos)
  have hinvpos : 0 < (Real.exp (2/3))⁻¹ := inv_pos.mpr hEpos
  have hden : (0:ℝ) < 1 + (Real.exp (2/3))⁻¹ := by positivity
  constructor
  · rw [le_div_iff₀ hden]
    nlinarith [hE.1, hinv, hinvpos, mul_pos hinvpos (sub_pos.mpr hE.1)]
  · rw [div_lt_iff₀ hden]
    nlinarith [hE.2, hinv, hinvpos, mul_pos hinvpos (sub_pos.mpr hE.2)]

theorem example_score : score [example_harm] [example_benefit] none = 66 := by
  have hb := example_mapped_bounds
  rw [score]
  have hr : round (mapped [example_harm] [example_benefit] none * 100) = (66:ℤ) := by
    rw [round_eq, Int.floor_eq_iff]
    constructor <;> push_cast <;> linarith [hb.1, hb.2]
  rw [hr]
  norm_num

theorem example_label :
    label [example_harm] [example_benefit] none = "Medium Risk / Reasonable Chance" := by
  rw [label, example_score]
  norm_num

/-- C7 counterexample: on harms=[{impact:10}], benefits=[{impact:0}],
weights=None the engine's score is 66, not (approximately) 62 as the claim
states — the claim's mapped value 0.622 mistakes 1/(1+e^(-10/15)) ≈ 0.661. -/
theorem claim7_counterexample_score_not_62 :
    score [example_harm] [example_benefit] none = 66 ∧
    score [example_harm] [example_benefit] none ≠ 62 := by
  refine ⟨example_score, ?_⟩
  rw [example_score]
  decide

/-- C7 (amended): for harms=[{impact:10}], benefits=[{impact:0}],
weights=None the engine yields harm_score=10, benefit_score=0, raw=10,
mapped=1/(1+e^(-10/15)) ∈ [0.65, 0.67) (≈0.661), score=66, and the label
"Medium Risk / Reasonable Chance". -/
theorem claim7_example_engine_values :
    harm_score [example_harm] = 10 ∧
    benefit_score [example_benefit] none = 0 ∧
    raw_score [example_harm] [example_benefit] none = 10 ∧
    ((0.65:ℝ) ≤ mapped [example_harm] [example_benefit] none ∧
      mapped [example_harm] [example_benefit] none < 0.67) ∧
    score [example_harm] [example_benefit] none = 66 ∧
    label [example_harm] [example_benefit] none = "Medium Risk / Reasonable Chance" := by
  refine ⟨?_, ?_, example_raw, ⟨?_, ?_⟩, example_score, example_label⟩
  · norm_num [harm_score, impactOf, example_harm]
  · norm_num [benefit_score, impactOf, example_benefit]
  · linarith [example_mapped_bounds.1]
  · linarith [example_mapped_bounds.2]

/-! ## Error handling of the Balance Engine (C9) -/

theorem resolveImpact_ok_of_impactOk {r : DynImpact} (h : impactOk r = true) :
    resolveImpact r = .ok (stripDyn r) := by
  unfold impactOk at h
  unfold resolveImpact stripDyn
  match hr : r.impact with
  | none => rfl
  | some (.num q) => rfl
  | some (.str s) => rw [hr] at h; exact absurd h (by simp)

theorem resolveAll_ok_of_all_impactOk :
    ∀ l : List DynImpact, l.all impactOk = true → resolveAll l = .ok (l.map stripDyn)
  | [], _ => rfl
  | r :: rest, h => by
    rw [List.all_cons, Bool.and_eq_true] at h
    rw [resolveAll, resolveImpact_ok_of_impactOk h.1,
      resolveAll_ok_of_all_impactOk rest h.2, List.map_cons]

/-- A record whose "impact" entry is the non-numeric string "high". -/
def malformed_harm : DynImpact := ⟨some "Flood risk", some "bad data", some (.str "high"), none⟩

/-- C9 counterexample: the Balance Engine is not total on malformed records —
a harm whose impact is the string "high" is not coerced to 0; the first sum
raises `TypeError` and no score is produced. -/
theorem claim9_counterexample_malformed_raises :
    planning_balance_engine_dyn [malformed_harm] [] none =
      .error "TypeError: unsupported operand type(s) for +" := rfl

/-- C9 (amended): a missing impact entry is treated as 0 and can never fail,
and on every pair of record lists whose impact entries are numeric or missing
the engine returns a score; but a malformed (non-numeric) impact value is not
coerced — it propagates a `TypeError` instead (see the counterexample). -/
theorem claim9_missing_defaults_wellformed_total (harms benefits : List DynImpact)
    (w : Option (List (String × ℚ)))
    (hwf : (harms.all impactOk && benefits.all impactOk) = true) :
    planning_balance_engine_dyn harms benefits w =
      .ok (planning_balance_engine (harms.map stripDyn) (benefits.map stripDyn) w) ∧
    (∀ (t d : Option String) (m : Option String) (rest : List Impact),
      harm_score (⟨t, d, none, m⟩ :: rest) = harm_score rest ∧
      benefit_score (⟨t, d, none, m⟩ :: rest) none = benefit_score rest none) := by
  rw [Bool.and_eq_true] at hwf
  constructor
  · rw [planning_balance_engine_dyn, resolveAll_ok_of_all_impactOk harms hwf.1,
      resolveAll_ok_of_all_impactOk benefits hwf.2]
  · intro t d m rest
    constructor
    · simp [harm_score, impactOf]
    · simp [benefit_score, impactOf]

/-- A well-formed dynamic harm (numeric impact 8). -/
def dyn_num_harm : DynImpact := ⟨some "Flood risk", none, some (.num 8), none⟩

/-- A well-formed dynamic benefit (impact entry missing). -/
def dyn_missing_benefit : DynImpact := ⟨some "Brownfield regeneration", none, none, none⟩

/-- C9 witness: the well-formedness hypothesis holds at a concrete input —
one numeric harm and one benefit with a missing impact — and the theorem
applies there, producing a score. -/
theorem claim9_witness :
    (([dyn_num_harm].all impactOk && [dyn_missing_benefit].all impactOk) = true) ∧
    planning_balance_engine_dyn [dyn_num_harm] [dyn_missing_benefit] none =
      .ok (planning_balance_engine
        ([dyn_num_harm].map stripDyn) ([dyn_missing_benefit].map stripDyn) none) :=
  ⟨by decide,
   (claim9_missing_defaults_wellformed_total [dyn_num_harm] [dyn_missing_benefit] none
     (by decide)).1⟩
